import Mathlib

/-
Verification of `oc_utils` (`src/oc_utils/src.py`), a single-function
library: `get_provenance_graph(entity_iri, data_root)` resolves the
provenance record of an entity from a sharded on-disk directory layout.

The shallow embedding below mirrors the Python source line by line:

* `lastSegment`   — line 15: `digits = entity_iri.split('/')[-1]`
* `supPre`        — line 16: `supplier_prefix = digits[:digits.find('0', 1)+1]`
* `parseIri`      — line 17: `sequential_number = int(digits.removeprefix(supplier_prefix))`
* `scanRoot`      — lines 18-20: scan of `os.listdir(data_root)` for the
                    directory equal to `supplier_prefix`
* `descend2`      — lines 21-23: `sorted(os.listdir(dir1_path), key=int)`,
                    first subdirectory whose value strictly exceeds
                    `sequential_number`, then `break`
* `descend3`      — lines 24-26: same, but with the listing first filtered
                    by `str.isdigit`
* `openShard`     — lines 27-30: open `prov/se.zip`, entry `se.json`
                    (`archive = none` models a missing/unreadable archive)
* `scanObjs`      — lines 31-33: first object with `obj['@id'] ==
                    entity_iri + '/prov/'`; a missing `'@id'` key raises

Python exceptions are modelled by `Except Err`, the Python return value
`None` by `Except.ok none`.  The directory tree handed to the function is
modelled as the nested listing (in `os.listdir` order) of directory names
with their contents.  Python `int(...)` is modelled for optional-sign
decimal strings and `str.isdigit` for ASCII digits, which covers every
directory name the layout can contain.
-/

namespace OcUtils

/-- JSON-like values, the shape of the data parsed from `se.json`. -/
inductive JVal : Type where
  | null : JVal
  | bool : Bool → JVal
  | num : Int → JVal
  | str : String → JVal
  | arr : List JVal → JVal
  | obj : List (String × JVal) → JVal

/-- A provenance object: a JSON object, i.e. a key-value record
(keys are unique, as produced by a JSON parser). -/
abbrev Obj := List (String × JVal)

/-- The Python exceptions the source can raise. -/
inductive Err : Type where
  /-- `ValueError` from a failing `int(...)` conversion. -/
  | valueError : Err
  /-- `KeyError` from `obj['@id']` on an object without that key. -/
  | keyError : Err
  /-- Any error opening `prov/se.zip`, its `se.json` entry, or parsing it. -/
  | storageError : Err
deriving DecidableEq

/-- A level-3 shard directory: its name and the parsed content of
`prov/se.zip` entry `se.json` (`none` when the archive or entry is
missing or unparseable). -/
structure Dir3 where
  name : String
  archive : Option (List Obj)

/-- A level-2 shard directory: its name and its listed children. -/
structure Dir2 where
  name : String
  subdirs : List Dir3

/-- A level-1 (supplier-prefix) directory: its name and its listed children. -/
structure Dir1 where
  name : String
  subdirs : List Dir2

/-- `s.split(c)` on the character list of a Python string. -/
def splitOnChar (c : Char) : List Char → List (List Char)
  | [] => [[]]
  | x :: xs =>
    let r := splitOnChar c xs
    if x == c then [] :: r
    else
      match r with
      | [] => [[x]]
      | h :: t => (x :: h) :: t

/-- Line 15 of the source: `entity_iri.split('/')[-1]`. -/
def lastSegment (s : String) : List Char :=
  (splitOnChar '/' s.data).getLastD []

/-- Python `s.find(c, start)`: the least index `≥ start` where `c`
occurs, and `-1` when there is none. -/
def pyFind (c : Char) (l : List Char) (start : Nat) : Int :=
  match (l.drop start).findIdx? (fun x => x == c) with
  | some i => Int.ofNat (start + i)
  | none => -1

/-- Boolean test that the first list is a leading segment of the second. -/
def isPre : List Char → List Char → Bool
  | [], _ => true
  | _ :: _, [] => false
  | a :: as, b :: bs => a == b && isPre as bs

/-- Python `l.removeprefix(p)`: strip `p` when it leads `l`, else `l`. -/
def pyRemovePre (l p : List Char) : List Char :=
  if isPre p l then l.drop p.length else l

/-- `true` iff every character is an ASCII digit and there is at least one:
Python `str.isdigit` restricted to ASCII. -/
def allDigits (l : List Char) : Bool :=
  !l.isEmpty && l.all Char.isDigit

/-- Decimal value of a digit string. -/
def digitsToNat (l : List Char) : Nat :=
  l.foldl (fun n c => 10 * n + (c.toNat - '0'.toNat)) 0

/-- Python `int(s)` for an optional-sign decimal string; `none` models the
`ValueError` raised on any other input (the empty string included). -/
def pyInt : List Char → Option Int
  | [] => none
  | c :: rest =>
    if c == '-' then
      if allDigits rest then some (-(digitsToNat rest : Int)) else none
    else if c == '+' then
      if allDigits rest then some ((digitsToNat rest : Int)) else none
    else
      if allDigits (c :: rest) then some ((digitsToNat (c :: rest) : Int)) else none

/-- Python `int(...)` applied to a directory name. -/
def nameInt (s : String) : Option Int :=
  pyInt s.data

/-- Python `str.isdigit` applied to a directory name. -/
def pyIsdigit (s : String) : Bool :=
  allDigits s.data

/-- Line 16 of the source: `digits[:digits.find('0', 1)+1]`, the
supplier-prefix slice of the identifier's last segment. -/
def supPre (entity_iri : String) : List Char :=
  (lastSegment entity_iri).take (pyFind '0' (lastSegment entity_iri) 1 + 1).toNat

/-- Lines 15-17 of the source: identifier parsing.  Returns the
supplier prefix and the sequential number, or the `ValueError` of a
failing `int(...)`. -/
def parseIri (entity_iri : String) : Except Err (String × Int) :=
  match pyInt (pyRemovePre (lastSegment entity_iri) (supPre entity_iri)) with
  | none => Except.error Err.valueError
  | some n => Except.ok (String.mk (supPre entity_iri), n)

/-- Key every element by `int(...)` of its name, in listing order; the
first non-numeric name raises `ValueError`, exactly as computing the sort
keys inside Python's `sorted(..., key=int)` does. -/
def keyByInt {α : Type} (nm : α → String) : List α → Except Err (List (α × Int))
  | [] => Except.ok []
  | a :: rest =>
    match nameInt (nm a) with
    | none => Except.error Err.valueError
    | some v =>
      match keyByInt nm rest with
      | Except.error e => Except.error e
      | Except.ok l => Except.ok ((a, v) :: l)

/-- Insert into a key-sorted list, after every element of key `≤` the new
element's key (so that the overall sort is stable, as Python's is). -/
def insertSorted {α : Type} (p : α × Int) : List (α × Int) → List (α × Int)
  | [] => [p]
  | q :: rest => if q.2 ≤ p.2 then q :: insertSorted p rest else p :: q :: rest

/-- Stable ascending sort of a keyed list. -/
def sortKeyed {α : Type} (l : List (α × Int)) : List (α × Int) :=
  l.foldl (fun acc p => insertSorted p acc) []

/-- Python `sorted(listing, key=lambda x: int(x))`: key every name by its
integer value (raising on a non-numeric name) and sort ascending. -/
def sortByIntName {α : Type} (nm : α → String) (l : List α) : Except Err (List (α × Int)) :=
  match keyByInt nm l with
  | Except.error e => Except.error e
  | Except.ok keyed => Except.ok (sortKeyed keyed)

/-- The shard-selection rule: the first element of the (sorted) keyed list
whose integer value strictly exceeds `seq`. -/
def firstGreater {α : Type} (seq : Int) (l : List (α × Int)) : Option (α × Int) :=
  l.find? (fun p => decide (seq < p.2))

/-- Python `==` between a JSON value and a string: `True` exactly when the
value is that string (comparing a non-string to a string is `False`,
never an error). -/
def jvalEqStr (v : JVal) (t : String) : Bool :=
  match v with
  | JVal.str s => s == t
  | _ => false

/-- Lines 31-33 of the source: scan the parsed `se.json` sequence in its
stored order and return the first object whose `'@id'` equals
`entity_iri + '/prov/'`; an object without an `'@id'` key raises
`KeyError`; exhausting the sequence falls through (`ok none`). -/
def scanObjs (entity_iri : String) : List Obj → Except Err (Option Obj)
  | [] => Except.ok none
  | o :: rest =>
    match List.lookup "@id" o with
    | none => Except.error Err.keyError
    | some v =>
      if jvalEqStr v (entity_iri ++ "/prov/") then Except.ok (some o)
      else scanObjs entity_iri rest

/-- Lines 27-30 of the source: open `dir3/prov/se.zip`, read entry
`se.json` (raising a storage error when impossible) and scan it. -/
def openShard (entity_iri : String) (d : Dir3) : Except Err (Option Obj) :=
  match d.archive with
  | none => Except.error Err.storageError
  | some objs => scanObjs entity_iri objs

/-- Lines 24-26 of the source: filter the level-2 directory's listing to
digit-only names, sort by integer value, descend into the first one
strictly greater than `seq` (then `break`), and fall through (`ok none`)
when there is none. -/
def descend3 (entity_iri : String) (seq : Int) (d2 : Dir2) : Except Err (Option Obj) :=
  match sortByIntName Dir3.name (d2.subdirs.filter (fun d => pyIsdigit d.name)) with
  | Except.error e => Except.error e
  | Except.ok l3 =>
    match firstGreater seq l3 with
    | some p => openShard entity_iri p.1
    | none => Except.ok none

/-- Lines 21-23 of the source: sort the level-1 directory's listing by
integer value (raising on any non-numeric name), descend into the first
one strictly greater than `seq` (then `break`), and fall through
(`ok none`) when there is none. -/
def descend2 (entity_iri : String) (seq : Int) (d1 : Dir1) : Except Err (Option Obj) :=
  match sortByIntName Dir2.name d1.subdirs with
  | Except.error e => Except.error e
  | Except.ok l2 =>
    match firstGreater seq l2 with
    | some p => descend3 entity_iri seq p.1
    | none => Except.ok none

/-- Lines 18-20 and 36 of the source: scan `os.listdir(data_root)` for a
directory equal to the supplier prefix and process it; when the
processing falls through without returning, the loop continues with the
remaining names; an exhausted loop returns `None`. -/
def scanRoot (entity_iri pre : String) (seq : Int) : List Dir1 → Except Err (Option Obj)
  | [] => Except.ok none
  | d :: rest =>
    if d.name == pre then
      match descend2 entity_iri seq d with
      | Except.ok none => scanRoot entity_iri pre seq rest
      | r => r
    else scanRoot entity_iri pre seq rest

/-- The whole source function `get_provenance_graph`: parse the
identifier (lines 15-17), then run the descent (lines 18-36). -/
def get_provenance_graph (entity_iri : String) (data_root : List Dir1) : Except Err (Option Obj) :=
  match parseIri entity_iri with
  | Except.error e => Except.error e
  | Except.ok p => scanRoot entity_iri p.1 p.2 data_root

/-- The matching test of line 32, packaged as a predicate on objects:
the object has an `'@id'` key whose value is the string
`entity_iri + '/prov/'`.  (In Python, `obj['@id'] == entity_iri + '/prov/'`
is `False` whenever the value is not a string.) -/
def isMatch (entity_iri : String) (o : Obj) : Bool :=
  match List.lookup "@id" o with
  | some v => jvalEqStr v (entity_iri ++ "/prov/")
  | none => false

/-! ### Concrete shard trees used to instantiate the theorems -/

/-- An object whose `'@id'` is the provenance IRI of entity `.../br/0601`. -/
def objW : Obj :=
  [("@id", JVal.str "https://w3id.org/oc/meta/br/0601/prov/"), ("n", JVal.num 1)]

def dirW3 : Dir3 := { name := "5", archive := some [objW] }

def dirW2 : Dir2 := { name := "10", subdirs := [dirW3] }

def dirW1 : Dir1 := { name := "060", subdirs := [dirW2] }

/-- A minimal well-formed tree whose shard `060/10/5` stores `objW`. -/
def treeW : List Dir1 := [dirW1]

/-- The object stored in shard `060/500/300` for entity `.../br/060250`. -/
def obj250 : Obj :=
  [("@id", JVal.str "https://w3id.org/oc/meta/br/060250/prov/"), ("n", JVal.num 250)]

def dirC2_100 : Dir2 := { name := "100", subdirs := [] }

def dirC2_500 : Dir2 := { name := "500", subdirs := [{ name := "300", archive := some [obj250] }] }

def dirC2_1000 : Dir2 := { name := "1000", subdirs := [] }

def dirC2_060 : Dir1 := { name := "060", subdirs := [dirC2_1000, dirC2_500, dirC2_100] }

/-- A tree whose matched level-1 directory lists `1000`, `500`, `100`
(deliberately not in sorted order); only the `500` shard holds data. -/
def treeC2 : List Dir1 := [dirC2_060]

/-- A tree with a `060` supplier directory and nothing below it. -/
def treeC3 : List Dir1 := [{ name := "060", subdirs := [] }]

/-- The object stored in shard `060/6000/5300` for entity `.../br/0605200`. -/
def obj5200 : Obj :=
  [("@id", JVal.str "https://w3id.org/oc/meta/br/0605200/prov/"), ("n", JVal.num 5200)]

def dirC4_5300 : Dir3 := { name := "5300", archive := some [obj5200] }

def dirC4_6000 : Dir2 :=
  { name := "6000", subdirs := [{ name := "5100", archive := none }, dirC4_5300] }

/-- The scenario tree of the spec: level-1 `060`, level-2 `1000` and
`6000`, level-3 `5100` and `5300`; the `5100` archive is deliberately
absent (only a wrong descent would touch it). -/
def treeC4 : List Dir1 :=
  [{ name := "060", subdirs := [{ name := "1000", subdirs := [] }, dirC4_6000] }]

/-- The object stored in shard `060/6000/20` for entity `.../br/06015`. -/
def obj15 : Obj := [("@id", JVal.str "https://w3id.org/oc/meta/br/06015/prov/")]

/-- A level-2 directory whose listing mixes numeric (`10`, `20`) and
non-numeric (`prov`, `readme`) names; the non-numeric archives are
deliberately absent (they are filtered out, never opened). -/
def dirC5_2 : Dir2 :=
  { name := "6000", subdirs := [
      { name := "10", archive := none },
      { name := "prov", archive := none },
      { name := "20", archive := some [obj15] },
      { name := "readme", archive := none } ] }

def treeC5 : List Dir1 := [{ name := "060", subdirs := [dirC5_2] }]

/-- An object that belongs to a different entity. -/
def objC6 : Obj := [("@id", JVal.str "https://w3id.org/oc/meta/br/0609/prov/")]

def dirC6_3 : Dir3 := { name := "5", archive := some [objC6] }

def dirC6_2 : Dir2 := { name := "10", subdirs := [dirC6_3] }

def dirC6_1 : Dir1 := { name := "060", subdirs := [dirC6_2] }

/-- A tree whose shard `060/10/5` exists but stores only `objC6`. -/
def treeC6 : List Dir1 := [dirC6_1]

/-- A tree whose only level-1 directory is named `061`. -/
def treeC7 : List Dir1 := [{ name := "061", subdirs := [] }]

/-- The object stored in shard `060/10/5` of `treeC8`. -/
def objC8 : Obj := [("@id", JVal.str "https://w3id.org/oc/meta/br/0601/prov/")]

/-- A tree whose root listing starts with the non-numeric name `junk`,
followed by a well-formed `060` subtree. -/
def treeC8 : List Dir1 :=
  [{ name := "junk", subdirs := [] },
   { name := "060", subdirs := [{ name := "10", subdirs := [{ name := "5", archive := some [objC8] }] }] }]

/-- A matched level-1 directory whose listing contains the non-numeric
level-2 name `prov` next to a numeric one. -/
def dirC8b : Dir1 :=
  { name := "060", subdirs := [{ name := "prov", subdirs := [] }, { name := "100", subdirs := [] }] }

def treeC8b : List Dir1 := [dirC8b]

/-- A non-matching object (different entity) with an `'@id'` key. -/
def objA9 : Obj := [("@id", JVal.str "https://w3id.org/oc/meta/br/0609/prov/")]

/-- The first matching object for entity `.../br/0601` in `treeC9`. -/
def objB9 : Obj := [("@id", JVal.str "https://w3id.org/oc/meta/br/0601/prov/"), ("n", JVal.num 1)]

/-- A second, different matching object stored after `objB9`. -/
def objB9x : Obj := [("@id", JVal.str "https://w3id.org/oc/meta/br/0601/prov/"), ("n", JVal.num 2)]

/-- A tree whose shard `060/10/5` stores a non-matching object followed
by two duplicate matches for entity `.../br/0601`. -/
def dirC9_3 : Dir3 := { name := "5", archive := some [objA9, objB9, objB9x] }

def dirC9_2 : Dir2 := { name := "10", subdirs := [dirC9_3] }

def dirC9_1 : Dir1 := { name := "060", subdirs := [dirC9_2] }

def treeC9 : List Dir1 := [dirC9_1]

/-- A digit-named level-3 directory (archive deliberately absent). -/
def dirC5_10 : Dir3 := { name := "10", archive := none }

/-- A non-numeric level-3 sibling, as `prov` directories are. -/
def dirC5_junk : Dir3 := { name := "prov", archive := none }

/-! ### Sanity checks of the identifier parsing on concrete inputs -/

example : lastSegment "https://w3id.org/oc/meta/br/0605200" = "0605200".data := rfl

example : supPre "https://w3id.org/oc/meta/br/0605200" = "060".data := rfl

example : parseIri "https://w3id.org/oc/meta/br/0605200" = Except.ok ("060", 5200) := rfl

example : parseIri "https://w3id.org/oc/meta/br/123" = Except.ok ("", 123) := rfl

example : parseIri "https://w3id.org/oc/meta/br/060" = Except.error Err.valueError := rfl

example : pyIsdigit "prov" = false := rfl

example : nameInt "100" = some 100 := rfl

/-! ### Helper lemmas about the embedded operations -/

theorem isPre_refl (l : List Char) : isPre l l = true := by
  induction l with
  | nil => rfl
  | cons a as ih => simp [isPre, ih]

theorem pyRemovePre_self (l : List Char) : pyRemovePre l l = [] := by
  simp [pyRemovePre, isPre_refl, List.drop_length]

theorem pyRemovePre_nil (l : List Char) : pyRemovePre l [] = l := by
  simp [pyRemovePre, isPre]

/-- Computing the sort keys fails with `ValueError` as soon as some name
in the listing is not `int(...)`-parseable. -/
theorem keyByInt_err {α : Type} (nm : α → String) (l : List α)
    (h : l.any (fun a => (nameInt (nm a)).isNone) = true) :
    keyByInt nm l = Except.error Err.valueError := by
  induction l with
  | nil => simp at h
  | cons a rest ih =>
    cases hv : nameInt (nm a) with
    | none => simp [keyByInt, hv]
    | some v =>
      have hr : rest.any (fun a => (nameInt (nm a)).isNone) = true := by
        simp only [List.any_cons, hv, Option.isNone_some, Bool.false_or] at h
        exact h
      simp [keyByInt, hv, ih hr]

/-- `sorted(..., key=int)` on a listing with a non-numeric name raises. -/
theorem sortByIntName_err {α : Type} (nm : α → String) (l : List α)
    (h : l.any (fun a => (nameInt (nm a)).isNone) = true) :
    sortByIntName nm l = Except.error Err.valueError := by
  unfold sortByIntName
  rw [keyByInt_err nm l h]

theorem find?_cons_true {α : Type} (p : α → Bool) (a : α) (l : List α) (h : p a = true) :
    List.find? p (a :: l) = some a := by
  simp [List.find?_cons, h]

theorem find?_cons_false {α : Type} (p : α → Bool) (a : α) (l : List α) (h : p a = false) :
    List.find? p (a :: l) = List.find? p l := by
  simp [List.find?_cons, h]

theorem filter_cons_true {α : Type} (p : α → Bool) (a : α) (l : List α) (h : p a = true) :
    List.filter p (a :: l) = a :: List.filter p l := by
  simp [List.filter_cons, h]

theorem filter_cons_false {α : Type} (p : α → Bool) (a : α) (l : List α) (h : p a = false) :
    List.filter p (a :: l) = List.filter p l := by
  simp [List.filter_cons, h]

theorem filter_nil_no {α : Type} (p : α → Bool) (l : List α) (h : l.filter p = []) :
    ∀ x ∈ l, p x = false := by
  induction l with
  | nil => intro x hx; cases hx
  | cons a rest ih =>
    intro x hx
    by_cases ha : p a = true
    · rw [List.filter_cons_of_pos ha] at h
      cases h
    · have ha' : p a = false := by simpa using ha
      rw [List.filter_cons_of_neg (by simp [ha'])] at h
      rcases List.mem_cons.mp hx with hx | hx
      · exact hx ▸ ha'
      · exact ih h x hx

/-- The root scan over a listing with no name equal to the supplier
prefix falls through to `None`. -/
theorem scanRoot_nomatch (iri pre : String) (seq : Int) (fs : List Dir1)
    (h : ∀ d ∈ fs, (d.name == pre) = false) :
    scanRoot iri pre seq fs = Except.ok none := by
  induction fs with
  | nil => rfl
  | cons d rest ih =>
    have hd := h d (List.mem_cons_self d rest)
    have hr := ih (fun x hx => h x (List.mem_cons_of_mem d hx))
    simp [scanRoot, hd, hr]

/-- When processing the first listing entry named like the supplier
prefix does not fall through, its outcome is the outcome of the whole
root scan. -/
theorem scanRoot_first (iri pre : String) (seq : Int) (fs : List Dir1) (d1 : Dir1)
    (hf : fs.find? (fun d => d.name == pre) = some d1)
    (hne : descend2 iri seq d1 ≠ Except.ok none) :
    scanRoot iri pre seq fs = descend2 iri seq d1 := by
  induction fs with
  | nil => simp [List.find?] at hf
  | cons d rest ih =>
    by_cases hd : (d.name == pre) = true
    · rw [find?_cons_true (fun d => d.name == pre) d rest hd] at hf
      injection hf with hf
      subst hf
      cases hdes : descend2 iri seq d with
      | error e => simp [scanRoot, hd, hdes]
      | ok o =>
        cases o with
        | none => exact absurd hdes hne
        | some x => simp [scanRoot, hd, hdes]
    · have hd' : (d.name == pre) = false := by simpa using hd
      rw [find?_cons_false (fun d => d.name == pre) d rest hd'] at hf
      simp [scanRoot, hd', ih hf]

/-- When exactly one listing entry is named like the supplier prefix, the
root scan is the processing of that entry. -/
theorem scanRoot_single (iri pre : String) (seq : Int) (fs : List Dir1) (d1 : Dir1)
    (hf : fs.filter (fun d => d.name == pre) = [d1]) :
    scanRoot iri pre seq fs = descend2 iri seq d1 := by
  induction fs with
  | nil => simp at hf
  | cons d rest ih =>
    by_cases hd : (d.name == pre) = true
    · rw [filter_cons_true (fun d => d.name == pre) d rest hd] at hf
      injection hf with hd1 hrest
      subst hd1
      have hrnone : scanRoot iri pre seq rest = Except.ok none :=
        scanRoot_nomatch iri pre seq rest (filter_nil_no _ rest hrest)
      cases hdes : descend2 iri seq d with
      | error e => simp [scanRoot, hd, hdes]
      | ok o =>
        cases o with
        | none => simp [scanRoot, hd, hdes, hrnone]
        | some x => simp [scanRoot, hd, hdes]
    · have hd' : (d.name == pre) = false := by simpa using hd
      rw [filter_cons_false (fun d => d.name == pre) d rest hd'] at hf
      simp [scanRoot, hd', ih hf]

/-- Unfolding of the whole call once the identifier parsing succeeded. -/
theorem get_eq (iri : String) (fs : List Dir1) (pre : String) (seq : Int)
    (h : parseIri iri = Except.ok (pre, seq)) :
    get_provenance_graph iri fs = scanRoot iri pre seq fs := by
  unfold get_provenance_graph
  rw [h]

/-- Unfolding of the level-2 step once the sorted listing is known. -/
theorem descend2_eq (iri : String) (seq : Int) (d1 : Dir1) (l2 : List (Dir2 × Int))
    (h : sortByIntName Dir2.name d1.subdirs = Except.ok l2) :
    descend2 iri seq d1 =
      match firstGreater seq l2 with
      | some p => descend3 iri seq p.1
      | none => Except.ok none := by
  unfold descend2
  rw [h]

/-- Unfolding of the level-3 step once the filtered sorted listing is known. -/
theorem descend3_eq (iri : String) (seq : Int) (d2 : Dir2) (l3 : List (Dir3 × Int))
    (h : sortByIntName Dir3.name (d2.subdirs.filter (fun d => pyIsdigit d.name)) = Except.ok l3) :
    descend3 iri seq d2 =
      match firstGreater seq l3 with
      | some p => openShard iri p.1
      | none => Except.ok none := by
  unfold descend3
  rw [h]

/-- The matching test, rephrased through a known `'@id'` value. -/
theorem isMatch_lookup (iri : String) (o : Obj) (v : JVal)
    (hv : List.lookup "@id" o = some v) :
    isMatch iri o = jvalEqStr v (iri ++ "/prov/") := by
  unfold isMatch
  rw [hv]

/-- An archive scan over objects that all have an `'@id'` key and none of
which matches falls through to `None`. -/
theorem scanObjs_none (iri : String) (objs : List Obj)
    (h : ∀ o ∈ objs, (List.lookup "@id" o).isSome = true ∧ isMatch iri o = false) :
    scanObjs iri objs = Except.ok none := by
  induction objs with
  | nil => rfl
  | cons o rest ih =>
    obtain ⟨hs, hm⟩ := h o (List.mem_cons_self o rest)
    obtain ⟨v, hv⟩ := Option.isSome_iff_exists.mp hs
    have hne : jvalEqStr v (iri ++ "/prov/") = false := by
      rw [isMatch_lookup iri o v hv] at hm
      exact hm
    have hr := ih (fun x hx => h x (List.mem_cons_of_mem o hx))
    simp [scanObjs, hv, hne, hr]

/-- The archive scan returns the first matching object of the stored
sequence, whatever follows it. -/
theorem scanObjs_first (iri : String) (l₁ l₂ : List Obj) (obj : Obj)
    (h1 : ∀ o ∈ l₁, (List.lookup "@id" o).isSome = true ∧ isMatch iri o = false)
    (hm : isMatch iri obj = true) :
    scanObjs iri (l₁ ++ obj :: l₂) = Except.ok (some obj) := by
  induction l₁ with
  | nil =>
    cases hv : List.lookup "@id" obj with
    | none =>
      rw [isMatch] at hm
      rw [hv] at hm
      exact absurd hm (by simp)
    | some v =>
      have heq : jvalEqStr v (iri ++ "/prov/") = true := by
        rw [isMatch_lookup iri obj v hv] at hm
        exact hm
      simp [scanObjs, hv, heq]
  | cons o rest ih =>
    obtain ⟨hs, hmo⟩ := h1 o (List.mem_cons_self o rest)
    obtain ⟨v, hv⟩ := Option.isSome_iff_exists.mp hs
    have hne : jvalEqStr v (iri ++ "/prov/") = false := by
      rw [isMatch_lookup iri o v hv] at hmo
      exact hmo
    have hr := ih (fun x hx => h1 x (List.mem_cons_of_mem o hx))
    simp only [List.cons_append, scanObjs, hv, hne, Bool.false_eq_true, if_false]
    exact hr

/-- When the archive holds exactly one matching object (all objects have
an `'@id'` key), the scan returns it. -/
theorem scanObjs_unique (iri : String) (objs : List Obj) (obj : Obj)
    (hmem : obj ∈ objs)
    (hall : ∀ o ∈ objs, (List.lookup "@id" o).isSome = true)
    (huniq : ∀ o ∈ objs, isMatch iri o = true → o = obj)
    (hm : isMatch iri obj = true) :
    scanObjs iri objs = Except.ok (some obj) := by
  induction objs with
  | nil => cases hmem
  | cons o rest ih =>
    obtain ⟨v, hv⟩ := Option.isSome_iff_exists.mp (hall o (List.mem_cons_self o rest))
    by_cases hEq : jvalEqStr v (iri ++ "/prov/") = true
    · have ho : o = obj := by
        refine huniq o (List.mem_cons_self o rest) ?_
        rw [isMatch_lookup iri o v hv]
        exact hEq
      subst ho
      simp [scanObjs, hv, hEq]
    · have hEq' : jvalEqStr v (iri ++ "/prov/") = false := by simpa using hEq
      have hmemR : obj ∈ rest := by
        rcases List.mem_cons.mp hmem with h | h
        · exfalso
          rw [← h] at hv
          rw [isMatch_lookup iri obj v hv] at hm
          exact hEq hm
        · exact h
      have hr := ih hmemR (fun x hx => hall x (List.mem_cons_of_mem o hx))
        (fun x hx => huniq x (List.mem_cons_of_mem o hx))
      simp only [scanObjs, hv, hEq', Bool.false_eq_true, if_false]
      exact hr

/-! ### The claims -/

/-- C1: Round-trip.  For every entity IRI and every shard tree in which
the descent (level-1 name equal to the supplier prefix, then twice the
sorted first-strictly-greater rule) selects a level-3 shard whose
archive contains an object with `'@id' = iri + "/prov/"` (unique, per
the uniqueness invariant, and with every archived object carrying an
`'@id'` key per the archive-entry contract), `get_provenance_graph`
returns exactly that object. -/
theorem C1_round_trip (iri : String) (fs : List Dir1) (pre : String) (seq : Int)
    (d1 : Dir1) (l2 : List (Dir2 × Int)) (d2 : Dir2) (v2 : Int)
    (l3 : List (Dir3 × Int)) (d3 : Dir3) (v3 : Int)
    (objs : List Obj) (obj : Obj)
    (hparse : parseIri iri = Except.ok (pre, seq))
    (hfind : fs.find? (fun d => d.name == pre) = some d1)
    (h2 : sortByIntName Dir2.name d1.subdirs = Except.ok l2)
    (h2f : firstGreater seq l2 = some (d2, v2))
    (h3 : sortByIntName Dir3.name (d2.subdirs.filter (fun d => pyIsdigit d.name)) = Except.ok l3)
    (h3f : firstGreater seq l3 = some (d3, v3))
    (harch : d3.archive = some objs)
    (hids : ∀ o ∈ objs, (List.lookup "@id" o).isSome = true)
    (hmem : obj ∈ objs)
    (hmatch : isMatch iri obj = true)
    (huniq : ∀ o ∈ objs, isMatch iri o = true → o = obj) :
    get_provenance_graph iri fs = Except.ok (some obj) := by
  have hscan : scanObjs iri objs = Except.ok (some obj) :=
    scanObjs_unique iri objs obj hmem hids huniq hmatch
  have hopen : openShard iri d3 = Except.ok (some obj) := by
    unfold openShard
    rw [harch]
    exact hscan
  have hd3 : descend3 iri seq d2 = Except.ok (some obj) := by
    rw [descend3_eq iri seq d2 l3 h3, h3f]
    exact hopen
  have hd2 : descend2 iri seq d1 = Except.ok (some obj) := by
    rw [descend2_eq iri seq d1 l2 h2, h2f]
    exact hd3
  have hne : descend2 iri seq d1 ≠ Except.ok none := by
    rw [hd2]
    simp
  rw [get_eq iri fs pre seq hparse, scanRoot_first iri pre seq fs d1 hfind hne, hd2]

/-- Witness for C1 at a concrete tree: the archive of shard `060/10/5`
holds the unique object for entity `.../br/0601`, and the call returns it. -/
theorem C1_round_trip_witness :
    get_provenance_graph "https://w3id.org/oc/meta/br/0601" treeW = Except.ok (some objW) :=
  C1_round_trip "https://w3id.org/oc/meta/br/0601" treeW "060" 1 dirW1 [(dirW2, 10)] dirW2 10
    [(dirW3, 5)] dirW3 5 [objW] objW rfl rfl rfl rfl rfl rfl rfl
    (fun o ho => by
      have h := List.mem_singleton.mp ho
      subst h
      rfl)
    (List.mem_singleton.mpr rfl)
    rfl
    (fun o ho _ => List.mem_singleton.mp ho)

/-- C2: Level-2 shard selection.  When the matched level-1 directory's
listing sorts (by integer value) to `l2`, the call descends into the
first entry strictly greater than the sequential number and is `None`
when there is no such entry; concretely, with level-2 names
`{100, 500, 1000}`, sequential number 250 selects `500` (and retrieves
the object stored there) while sequential number 1000 yields `None`. -/
theorem C2_level2_selection :
    (∀ (iri : String) (fs : List Dir1) (pre : String) (seq : Int) (d1 : Dir1)
        (l2 : List (Dir2 × Int)),
      parseIri iri = Except.ok (pre, seq) →
      fs.filter (fun d => d.name == pre) = [d1] →
      sortByIntName Dir2.name d1.subdirs = Except.ok l2 →
      (∀ (d2 : Dir2) (v2 : Int), firstGreater seq l2 = some (d2, v2) →
          get_provenance_graph iri fs = descend3 iri seq d2) ∧
        (firstGreater seq l2 = none → get_provenance_graph iri fs = Except.ok none)) ∧
    get_provenance_graph "https://w3id.org/oc/meta/br/060250" treeC2 =
      descend3 "https://w3id.org/oc/meta/br/060250" 250 dirC2_500 ∧
    get_provenance_graph "https://w3id.org/oc/meta/br/060250" treeC2 = Except.ok (some obj250) ∧
    get_provenance_graph "https://w3id.org/oc/meta/br/06001000" treeC2 = Except.ok none := by
  refine ⟨?_, rfl, rfl, rfl⟩
  intro iri fs pre seq d1 l2 hparse hfilter hsort
  constructor
  · intro d2 v2 hfg
    rw [get_eq iri fs pre seq hparse, scanRoot_single iri pre seq fs d1 hfilter,
      descend2_eq iri seq d1 l2 hsort, hfg]
  · intro hfg
    rw [get_eq iri fs pre seq hparse, scanRoot_single iri pre seq fs d1 hfilter,
      descend2_eq iri seq d1 l2 hsort, hfg]

/-- Witness for C2: on the concrete tree with level-2 names
`{100, 500, 1000}` and sequential number 250 the call is the descent
into the `500` shard. -/
theorem C2_level2_selection_witness :
    get_provenance_graph "https://w3id.org/oc/meta/br/060250" treeC2 =
      descend3 "https://w3id.org/oc/meta/br/060250" 250 dirC2_500 :=
  (C2_level2_selection.1 "https://w3id.org/oc/meta/br/060250" treeC2 "060" 250 dirC2_060
      [(dirC2_100, 100), (dirC2_500, 500), (dirC2_1000, 1000)] rfl rfl rfl).1 dirC2_500 500 rfl

/-- C3 counterexample: the claim says every identifier whose last
segment has no `'0'` at index ≥ 1 raises; but for segment `"123"` the
source computes an empty supplier prefix, `int("123")` succeeds, no
directory is named `""`, and the call returns `None` — no error. -/
theorem C3_counterexample :
    pyFind '0' (lastSegment "https://w3id.org/oc/meta/br/123") 1 = -1 ∧
    get_provenance_graph "https://w3id.org/oc/meta/br/123" treeC3 = Except.ok none :=
  ⟨rfl, rfl⟩

/-- C3 amended: for an identifier whose last segment has no `'0'` at
index ≥ 1, the supplier prefix is empty and the whole segment is fed to
`int(...)`: the call raises the malformed-input error exactly when that
conversion fails; when the segment is itself a valid integer the call
instead proceeds with the empty prefix and (directory names being
nonempty) returns `None`. -/
theorem C3_amended (iri : String) (fs : List Dir1)
    (h0 : pyFind '0' (lastSegment iri) 1 = -1) :
    (pyInt (lastSegment iri) = none →
      get_provenance_graph iri fs = Except.error Err.valueError) ∧
    (∀ n : Int, pyInt (lastSegment iri) = some n →
      (∀ d ∈ fs, d.name ≠ "") → get_provenance_graph iri fs = Except.ok none) := by
  have hpre : supPre iri = [] := by
    unfold supPre
    rw [h0]
    have h1 : ((-1 : Int) + 1).toNat = 0 := by decide
    rw [h1, List.take_zero]
  have hrem : pyRemovePre (lastSegment iri) (supPre iri) = lastSegment iri := by
    rw [hpre, pyRemovePre_nil]
  constructor
  · intro hpi
    have hparse : parseIri iri = Except.error Err.valueError := by
      unfold parseIri
      rw [hrem, hpi]
    unfold get_provenance_graph
    rw [hparse]
  · intro n hpi hfs
    have hparse : parseIri iri = Except.ok (String.mk (supPre iri), n) := by
      unfold parseIri
      rw [hrem, hpi]
    have hpre' : String.mk (supPre iri) = "" := by
      rw [hpre]
    rw [get_eq iri fs (String.mk (supPre iri)) n hparse, hpre']
    apply scanRoot_nomatch
    intro d hd
    have hne := hfs d hd
    simp [hne]

/-- Witness for C3 amended: segment `"abc"` (no `'0'` at index ≥ 1,
not an integer) raises, segment `"123"` (no `'0'` at index ≥ 1, a valid
integer) returns `None`. -/
theorem C3_amended_witness :
    get_provenance_graph "https://w3id.org/oc/meta/br/abc" treeC3 = Except.error Err.valueError ∧
    get_provenance_graph "https://w3id.org/oc/meta/br/123" treeC3 = Except.ok none :=
  ⟨(C3_amended "https://w3id.org/oc/meta/br/abc" treeC3 rfl).1 rfl,
   (C3_amended "https://w3id.org/oc/meta/br/123" treeC3 rfl).2 123 rfl
     (fun d hd => by
       have h := List.mem_singleton.mp hd
       subst h
       decide)⟩

/-- C4: identifier `.../br/0605200` parses to supplier prefix `"060"`
and sequential number 5200; on the scenario tree (level-2 `{1000, 6000}`,
level-3 `{5100, 5300}` under `6000`) the call descends into `6000`, then
into `5300` (whose archive it opens), and returns the stored object. -/
theorem C4_scenario :
    parseIri "https://w3id.org/oc/meta/br/0605200" = Except.ok ("060", 5200) ∧
    get_provenance_graph "https://w3id.org/oc/meta/br/0605200" treeC4 =
      descend3 "https://w3id.org/oc/meta/br/0605200" 5200 dirC4_6000 ∧
    descend3 "https://w3id.org/oc/meta/br/0605200" 5200 dirC4_6000 =
      openShard "https://w3id.org/oc/meta/br/0605200" dirC4_5300 ∧
    get_provenance_graph "https://w3id.org/oc/meta/br/0605200" treeC4 = Except.ok (some obj5200) :=
  ⟨rfl, rfl, rfl, rfl⟩

/-- C5: level-3 filtering.  Removing a non-digit-named sibling from a
level-2 directory's listing never changes the level-3 step (so such
names neither participate in the selection nor cause an error there);
concretely, with level-3 listing `{10, prov, 20, readme}` and sequential
number 15 the call selects `20` and returns its stored object. -/
theorem C5_level3_filter :
    (∀ (iri : String) (seq : Int) (nm : String) (l r : List Dir3) (junk : Dir3),
      pyIsdigit junk.name = false →
      descend3 iri seq { name := nm, subdirs := l ++ junk :: r } =
        descend3 iri seq { name := nm, subdirs := l ++ r }) ∧
    get_provenance_graph "https://w3id.org/oc/meta/br/06015" treeC5 = Except.ok (some obj15) := by
  refine ⟨?_, rfl⟩
  intro iri seq nm l r junk hj
  unfold descend3
  simp [List.filter_append, List.filter_cons, hj]

/-- Witness for C5: dropping the non-numeric sibling `prov` from a
concrete level-2 listing leaves the level-3 step unchanged. -/
theorem C5_level3_filter_witness :
    descend3 "x" 15 { name := "6000", subdirs := [dirC5_10, dirC5_junk] } =
      descend3 "x" 15 { name := "6000", subdirs := [dirC5_10] } :=
  C5_level3_filter.1 "x" 15 "6000" [dirC5_10] [] dirC5_junk rfl

/-- C6: when the descent reaches a level-3 shard whose archive holds no
object with `'@id' = iri + "/prov/"` (all objects carrying an `'@id'`
key), the call returns `None`, not an error. -/
theorem C6_archive_without_match (iri : String) (fs : List Dir1) (pre : String) (seq : Int)
    (d1 : Dir1) (l2 : List (Dir2 × Int)) (d2 : Dir2) (v2 : Int)
    (l3 : List (Dir3 × Int)) (d3 : Dir3) (v3 : Int) (objs : List Obj)
    (hparse : parseIri iri = Except.ok (pre, seq))
    (hfilter : fs.filter (fun d => d.name == pre) = [d1])
    (h2 : sortByIntName Dir2.name d1.subdirs = Except.ok l2)
    (h2f : firstGreater seq l2 = some (d2, v2))
    (h3 : sortByIntName Dir3.name (d2.subdirs.filter (fun d => pyIsdigit d.name)) = Except.ok l3)
    (h3f : firstGreater seq l3 = some (d3, v3))
    (harch : d3.archive = some objs)
    (hobjs : ∀ o ∈ objs, (List.lookup "@id" o).isSome = true ∧ isMatch iri o = false) :
    get_provenance_graph iri fs = Except.ok none := by
  have hscan : scanObjs iri objs = Except.ok none := scanObjs_none iri objs hobjs
  have hopen : openShard iri d3 = Except.ok none := by
    unfold openShard
    rw [harch]
    exact hscan
  have hd3 : descend3 iri seq d2 = Except.ok none := by
    rw [descend3_eq iri seq d2 l3 h3, h3f]
    exact hopen
  have hd2 : descend2 iri seq d1 = Except.ok none := by
    rw [descend2_eq iri seq d1 l2 h2, h2f]
    exact hd3
  rw [get_eq iri fs pre seq hparse, scanRoot_single iri pre seq fs d1 hfilter, hd2]

/-- Witness for C6: the shard `060/10/5` of `treeC6` exists but holds
only another entity's object; the call returns `None`. -/
theorem C6_archive_without_match_witness :
    get_provenance_graph "https://w3id.org/oc/meta/br/0601" treeC6 = Except.ok none :=
  C6_archive_without_match "https://w3id.org/oc/meta/br/0601" treeC6 "060" 1 dirC6_1
    [(dirC6_2, 10)] dirC6_2 10 [(dirC6_3, 5)] dirC6_3 5 [objC6]
    rfl rfl rfl rfl rfl rfl rfl
    (fun o ho => by
      have h := List.mem_singleton.mp ho
      subst h
      exact ⟨rfl, rfl⟩)

/-- C7: when no immediate subdirectory of the data root is named like
the supplier prefix, the call returns `None`, not an error. -/
theorem C7_missing_supplier_dir (iri : String) (fs : List Dir1) (pre : String) (seq : Int)
    (hparse : parseIri iri = Except.ok (pre, seq))
    (hnone : ∀ d ∈ fs, (d.name == pre) = false) :
    get_provenance_graph iri fs = Except.ok none := by
  rw [get_eq iri fs pre seq hparse]
  exact scanRoot_nomatch iri pre seq fs hnone

/-- Witness for C7: a root whose only directory is `061` yields `None`
for entity `.../br/0601` (supplier prefix `060`). -/
theorem C7_missing_supplier_dir_witness :
    get_provenance_graph "https://w3id.org/oc/meta/br/0601" treeC7 = Except.ok none :=
  C7_missing_supplier_dir "https://w3id.org/oc/meta/br/0601" treeC7 "060" 1 rfl
    (fun d hd => by
      have h := List.mem_singleton.mp hd
      subst h
      rfl)

/-- C8 counterexample: the claim says non-numeric directory names at
level 1 cause a loud failure; but level-1 names are only compared for
equality with the supplier prefix, so the non-numeric root entry `junk`
of `treeC8` is skipped silently and the call still succeeds. -/
theorem C8_counterexample :
    pyIsdigit "junk" = false ∧
    get_provenance_graph "https://w3id.org/oc/meta/br/0601" treeC8 = Except.ok (some objC8) :=
  ⟨rfl, rfl⟩

/-- C8 amended: only level-2 names are parsed unfiltered, so any
non-`int(...)`-parseable name in the matched level-1 directory's listing
makes the call raise (level-1 names are merely equality-tested and
level 3 filters to digit-only names). -/
theorem C8_amended (iri : String) (fs : List Dir1) (pre : String) (seq : Int) (d1 : Dir1)
    (hparse : parseIri iri = Except.ok (pre, seq))
    (hfind : fs.find? (fun d => d.name == pre) = some d1)
    (hbad : d1.subdirs.any (fun d => (nameInt d.name).isNone) = true) :
    get_provenance_graph iri fs = Except.error Err.valueError := by
  have herr : descend2 iri seq d1 = Except.error Err.valueError := by
    unfold descend2
    rw [sortByIntName_err Dir2.name d1.subdirs hbad]
  have hne : descend2 iri seq d1 ≠ Except.ok none := by
    rw [herr]
    simp
  rw [get_eq iri fs pre seq hparse, scanRoot_first iri pre seq fs d1 hfind hne, herr]

/-- Witness for C8 amended: a matched `060` directory whose listing
contains the non-numeric name `prov` makes the call raise. -/
theorem C8_amended_witness :
    get_provenance_graph "https://w3id.org/oc/meta/br/0601" treeC8b = Except.error Err.valueError :=
  C8_amended "https://w3id.org/oc/meta/br/0601" treeC8b "060" 1 dirC8b rfl rfl rfl

/-- C9: the returned object is single (the result type carries at most
one object) and, when the matched archive stores several matching
objects, it is the first match in the stored order: whatever follows the
first match — further duplicates included — is never reached. -/
theorem C9_first_match (iri : String) (fs : List Dir1) (pre : String) (seq : Int)
    (d1 : Dir1) (l2 : List (Dir2 × Int)) (d2 : Dir2) (v2 : Int)
    (l3 : List (Dir3 × Int)) (d3 : Dir3) (v3 : Int)
    (before after : List Obj) (obj : Obj)
    (hparse : parseIri iri = Except.ok (pre, seq))
    (hfind : fs.find? (fun d => d.name == pre) = some d1)
    (h2 : sortByIntName Dir2.name d1.subdirs = Except.ok l2)
    (h2f : firstGreater seq l2 = some (d2, v2))
    (h3 : sortByIntName Dir3.name (d2.subdirs.filter (fun d => pyIsdigit d.name)) = Except.ok l3)
    (h3f : firstGreater seq l3 = some (d3, v3))
    (harch : d3.archive = some (before ++ obj :: after))
    (hbefore : ∀ o ∈ before, (List.lookup "@id" o).isSome = true ∧ isMatch iri o = false)
    (hmatch : isMatch iri obj = true) :
    get_provenance_graph iri fs = Except.ok (some obj) := by
  have hscan : scanObjs iri (before ++ obj :: after) = Except.ok (some obj) :=
    scanObjs_first iri before after obj hbefore hmatch
  have hopen : openShard iri d3 = Except.ok (some obj) := by
    unfold openShard
    rw [harch]
    exact hscan
  have hd3 : descend3 iri seq d2 = Except.ok (some obj) := by
    rw [descend3_eq iri seq d2 l3 h3, h3f]
    exact hopen
  have hd2 : descend2 iri seq d1 = Except.ok (some obj) := by
    rw [descend2_eq iri seq d1 l2 h2, h2f]
    exact hd3
  have hne : descend2 iri seq d1 ≠ Except.ok none := by
    rw [hd2]
    simp
  rw [get_eq iri fs pre seq hparse, scanRoot_first iri pre seq fs d1 hfind hne, hd2]

/-- Witness for C9: the archive of `treeC9` stores a non-matching object
followed by two distinct duplicate matches; the call returns the first
of the two. -/
theorem C9_first_match_witness :
    get_provenance_graph "https://w3id.org/oc/meta/br/0601" treeC9 = Except.ok (some objB9) :=
  C9_first_match "https://w3id.org/oc/meta/br/0601" treeC9 "060" 1 dirC9_1
    [(dirC9_2, 10)] dirC9_2 10 [(dirC9_3, 5)] dirC9_3 5 [objA9] [objB9x] objB9
    rfl rfl rfl rfl rfl rfl rfl
    (fun o ho => by
      have h := List.mem_singleton.mp ho
      subst h
      exact ⟨rfl, rfl⟩)
    rfl

/-- C10: implicit edge case.  When the first `'0'` at index ≥ 1 of the
identifier's last segment is its final character, the supplier-prefix
slice is the whole segment, the stripped remainder is empty, and
`int('')` raises — the call errors on every tree instead of returning
`None`. -/
theorem C10_empty_seq_number (iri : String) (k : Nat)
    (hfind : pyFind '0' (lastSegment iri) 1 = Int.ofNat k)
    (hlen : k + 1 = (lastSegment iri).length) :
    ∀ fs : List Dir1, get_provenance_graph iri fs = Except.error Err.valueError := by
  intro fs
  have hpre : supPre iri = lastSegment iri := by
    unfold supPre
    rw [hfind]
    have h1 : (Int.ofNat k + 1).toNat = k + 1 := rfl
    rw [h1, hlen, List.take_length]
  have hparse : parseIri iri = Except.error Err.valueError := by
    unfold parseIri
    rw [hpre, pyRemovePre_self]
    rfl
  unfold get_provenance_graph
  rw [hparse]

/-- Witness for C10: segment `"060"` has its first `'0'` at index ≥ 1 in
last position (index 2), and the call raises on the empty tree. -/
theorem C10_empty_seq_number_witness :
    get_provenance_graph "https://w3id.org/oc/meta/br/060" [] = Except.error Err.valueError :=
  C10_empty_seq_number "https://w3id.org/oc/meta/br/060" 2 rfl rfl []

end OcUtils
